import Mathlib

/-!
Verification of the server dispatcher of the trivialt TFTP library
(`server.go`): datagram acceptance in the receive loop, per-request
dispatch on a fresh ephemeral socket, handler registration, shutdown,
and option configuration.

The packet codec (datagram validation, opcode/field extraction) and a
few library constants are declared outside this slice of the source;
those are modelled from the specification and marked as such.
-/

namespace Trivialt

/-- Abstract UDP address of a peer. -/
structure UDPAddr where
  host : String
  port : Nat
deriving DecidableEq, Repr

/-- Sentinel and wrapped errors referenced from `server.go`. -/
inductive Err where
  | noRegisteredHandlers
  | invalidNetwork
  | invalidRetransmit
  | wrapped (context : String) (cause : String)
deriving DecidableEq, Repr

/-- Modelled from the spec: the default listening network, `"udp"`
(`defaultUDPNet` is declared outside `server.go`). -/
def defaultUDPNet : String := "udp"

/-- Modelled from the spec: the default per-packet retransmission budget,
10 (`defaultRetransmit` is declared outside `server.go`). -/
def defaultRetransmit : Int := 10

/-- Server state (`server.go`).  A handler field is `true` when a handler
is registered (non-nil).  The `log`, `addr` and `conn` fields carry no
dispatch-relevant state and are kept out of the model. -/
structure Server where
  net : String
  addrStr : String
  close : Bool
  retransmit : Int
  rh : Bool
  wh : Bool
deriving DecidableEq, Repr

/-- `ServerOpt` (`server.go`): configures a server or fails. -/
def ServerOpt := Server → Except Err Server

/-- The server literal `NewServer` builds before applying options. -/
def initialServer (addr : String) : Server :=
  { net := defaultUDPNet, addrStr := addr, close := false,
    retransmit := defaultRetransmit, rh := false, wh := false }

/-- `NewServer` (`server.go`): applies the options in order; the first
failing option's error aborts with that error (`Except.error` models the
Go return `(nil, err)`). -/
def NewServer (addr : String) (opts : List ServerOpt) : Except Err Server :=
  opts.foldlM (fun s opt => opt s) (initialServer addr)

/-- `ServerNet` (`server.go`): only `"udp"`, `"udp4"`, `"udp6"` are legal. -/
def ServerNet (n : String) : ServerOpt := fun s =>
  if n ≠ "udp" ∧ n ≠ "udp4" ∧ n ≠ "udp6" then Except.error Err.invalidNetwork
  else Except.ok { s with net := n }

/-- `ServerRetransmit` (`server.go`): rejects negative limits. -/
def ServerRetransmit (i : Int) : ServerOpt := fun s =>
  if i < 0 then Except.error Err.invalidRetransmit
  else Except.ok { s with retransmit := i }

/-- Modelled from the spec: opcode RRQ = 1 (§4.A; the constants are declared
outside `server.go`). -/
def opCodeRRQ : Nat := 1

/-- Modelled from the spec: opcode WRQ = 2 (§4.A). -/
def opCodeWRQ : Nat := 2

/-- Modelled from the spec: opcode DATA = 3 (§4.A). -/
def opCodeDATA : Nat := 3

/-- Modelled from the spec: opcode ACK = 4 (§4.A). -/
def opCodeACK : Nat := 4

/-- Modelled from the spec: opcode ERROR = 5 (§4.A). -/
def opCodeERROR : Nat := 5

/-- Modelled from the spec: opcode OACK = 6 (§4.A). -/
def opCodeOACK : Nat := 6

/-- Modelled from the spec: wire error code 4, illegal operation (§4.A;
`ErrCodeIllegalOperation` is declared outside `server.go`). -/
def ErrCodeIllegalOperation : Nat := 4

/-- Modelled from the spec: split a byte sequence into NUL-terminated
fields; fails when trailing bytes lack a terminating NUL (§4.A).  The
second argument accumulates the current field in reverse. -/
def nulFields : List Nat → List Nat → Option (List (List Nat))
  | [], cur => if cur = [] then some [] else none
  | b :: rest, cur =>
    if b = 0 then (nulFields rest []).map (fun fs => cur.reverse :: fs)
    else nulFields rest (b :: cur)

/-- Modelled from the spec: ASCII lowercasing of one byte (mode comparison
is case-insensitive, §3). -/
def toLowerByte (b : Nat) : Nat := if 65 ≤ b ∧ b ≤ 90 then b + 32 else b

/-- The byte sequence of an ASCII string. -/
def strBytes (s : String) : List Nat := s.toList.map Char.toNat

/-- Modelled from the spec: a valid transfer mode is `"netascii"` or
`"octet"` up to case (§4.A). -/
def modeOK (md : List Nat) : Bool :=
  md.map toLowerByte == strBytes "netascii" || md.map toLowerByte == strBytes "octet"

/-- Modelled from the spec: option keys and values appear in key/value
pairs and are non-empty (§4.A). -/
def optPairsOK : List (List Nat) → Bool
  | [] => true
  | [_] => false
  | k :: v :: rest => !k.isEmpty && !v.isEmpty && optPairsOK rest

/-- Modelled from the spec: datagram validation (§4.A) — minimum length per
opcode, terminating NULs for every string field, a known mode, option
key/value pairing.  Stands in for `datagram.validate`, declared outside
`server.go`. -/
def pktValidate (b : List Nat) : Bool :=
  match b with
  | op1 :: op2 :: rest =>
    let op := op1 * 256 + op2
    if op == opCodeRRQ || op == opCodeWRQ then
      match nulFields rest [] with
      | some (_fn :: md :: opts) => modeOK md && optPairsOK opts
      | _ => false
    else if op == opCodeDATA then decide (2 ≤ rest.length)
    else if op == opCodeACK then decide (2 ≤ rest.length)
    else if op == opCodeERROR then
      match rest with
      | _ :: _ :: msg => msg.getLast? == some 0
      | _ => false
    else if op == opCodeOACK then
      match nulFields rest [] with
      | some opts => optPairsOK opts
      | none => false
    else false
  | _ => false

/-- Modelled from the spec: the opcode of a datagram — its first two bytes
in network byte order (§4.A). -/
def pktOpcode (b : List Nat) : Nat :=
  match b with
  | op1 :: op2 :: _ => op1 * 256 + op2
  | _ => 0

/-- Modelled from the spec: the filename of a request — the first
NUL-terminated field after the opcode (§4.A). -/
def pktFilename (b : List Nat) : List Nat :=
  match b with
  | _ :: _ :: rest =>
    match nulFields rest [] with
    | some (fn :: _) => fn
    | _ => []
  | _ => []

/-- Modelled from the spec: the mode of a request, lowercased on decode
(§3). -/
def pktMode (b : List Nat) : List Nat :=
  match b with
  | _ :: _ :: rest =>
    match nulFields rest [] with
    | some (_ :: md :: _) => md.map toLowerByte
    | _ => []
  | _ => []

/-- The socket an outgoing packet travels on: the shared listener, or the
per-transfer connection `dispatchRequest` opens. -/
inductive Sock where
  | listener
  | transferConn
deriving DecidableEq, Repr

/-- Observable effects of `dispatchRequest`, in program order. -/
inductive Event where
  | openConn (net : String) (remote : UDPAddr)
  | sendError (sock : Sock) (code : Nat) (msg : String)
  | invokeRead (name : List Nat)
  | invokeWrite (name : List Nat) (setupErr : Bool)
  | closeConn
deriving DecidableEq, Repr

/-- The connection fields `dispatchRequest` sets before handing off. -/
structure DispatchConn where
  retransmit : Int
  mode : List Nat
deriving DecidableEq, Repr

/-- `dispatchRequest` (`server.go`).  `newConnOk` models whether `newConn`
succeeded (an OS-level outcome); `readSetupErr` models the outcome of
`conn.readSetup` on the write path (the handler runs either way, with the
error recorded on the connection).  Returns the event trace and the
connection state (`none` when `newConn` failed, in which case the function
returns before any effect). -/
def dispatchRequest (s : Server) (newConnOk : Bool) (readSetupErr : Bool)
    (addr : UDPAddr) (b : List Nat) : List Event × Option DispatchConn :=
  if newConnOk = false then ([], none)
  else
    let conn0 : DispatchConn := { retransmit := s.retransmit, mode := [] }
    if pktValidate b = false then
      ([Event.openConn s.net addr, Event.closeConn], some conn0)
    else
      let conn : DispatchConn := { conn0 with mode := pktMode b }
      if pktOpcode b = opCodeRRQ then
        if s.rh = false then
          ([Event.openConn s.net addr,
            Event.sendError Sock.transferConn ErrCodeIllegalOperation
              "Server does not support read requests.",
            Event.closeConn], some conn)
        else
          ([Event.openConn s.net addr, Event.invokeRead (pktFilename b),
            Event.closeConn], some conn)
      else if pktOpcode b = opCodeWRQ then
        if s.wh = false then
          ([Event.openConn s.net addr,
            Event.sendError Sock.transferConn ErrCodeIllegalOperation
              "Server does not support write requests.",
            Event.closeConn], some conn)
        else
          ([Event.openConn s.net addr, Event.invokeWrite (pktFilename b) readSetupErr,
            Event.closeConn], some conn)
      else
        ([Event.openConn s.net addr, Event.closeConn], some conn)

/-- One iteration's input to the receive loop: a datagram with its source
address, or a failed read carrying the value of the close flag at that
moment (`Close` sets the flag concurrently). -/
inductive RecvResult where
  | ok (datagram : List Nat) (addr : UDPAddr)
  | err (closeFlag : Bool) (cause : String)
deriving DecidableEq, Repr

/-- The value `Serve` returns: nil, an error, or still looping when the
modelled input sequence is exhausted. -/
inductive ServeOutcome where
  | retNil
  | retErr (e : Err)
  | pending
deriving DecidableEq, Repr

/-- A buffer handed to an asynchronous `dispatchRequest`, with the source
address of the datagram. -/
structure Handoff where
  addr : UDPAddr
  buf : List Nat
deriving DecidableEq, Repr

/-- The receive loop of `Serve` (`server.go`): `ReadFromUDP` stores at most
`buf.length` bytes of the datagram at the front of the shared buffer and
reports how many; the loop copies exactly that many bytes into a fresh
buffer and hands it off.  On a read error it returns nil when the close
flag is set, the wrapped error otherwise. -/
def serveLoop (buf : List Nat) : List RecvResult → List Handoff × ServeOutcome
  | [] => ([], ServeOutcome.pending)
  | RecvResult.ok d addr :: rest =>
    let numBytes := min d.length buf.length
    let buf2 := d.take numBytes ++ buf.drop numBytes
    let bufCopy := buf2.take numBytes
    let r := serveLoop buf2 rest
    (⟨addr, bufCopy⟩ :: r.1, r.2)
  | RecvResult.err closeFlag cause :: _ =>
    if closeFlag then ([], ServeOutcome.retNil)
    else ([], ServeOutcome.retErr (Err.wrapped "reading from conn" cause))

/-- `Serve` (`server.go`): fails with `ErrNoRegisteredHandlers` when neither
handler is registered; otherwise enters the receive loop with a fresh
zeroed 1024-byte buffer. -/
def Serve (s : Server) (inputs : List RecvResult) : List Handoff × ServeOutcome :=
  if !s.rh && !s.wh then ([], ServeOutcome.retErr Err.noRegisteredHandlers)
  else serveLoop (List.replicate 1024 0) inputs

/-- The result of `Close` (`server.go`): the server with its close flag
set, and the fact that the listener socket was closed. -/
structure CloseResult where
  server : Server
  listenerClosed : Bool
deriving DecidableEq, Repr

/-- `Close` (`server.go`): sets the close flag, then closes the listener. -/
def Server.Close (s : Server) : CloseResult :=
  { server := { s with close := true }, listenerClosed := true }

/-- Whether an event invokes a registered handler. -/
def Event.isHandlerInvocation : Event → Bool
  | Event.invokeRead _ => true
  | Event.invokeWrite _ _ => true
  | _ => false

/-- Whether an event sends a packet to the peer. -/
def Event.isSend : Event → Bool
  | Event.sendError _ _ _ => true
  | _ => false

/-- The buffers the receive loop hands off: for each accepted datagram (up
to the first read error), its first at-most-1024 bytes with its source
address. -/
def acceptedCopies : List RecvResult → List Handoff
  | [] => []
  | RecvResult.ok d addr :: rest => ⟨addr, d.take 1024⟩ :: acceptedCopies rest
  | RecvResult.err _ _ :: _ => []

/-- Example server: write handler registered, read handler not. -/
def s0 : Server :=
  { net := "udp", addrStr := ":69", close := false, retransmit := 10,
    rh := false, wh := true }

/-- Example server: read handler registered, write handler not. -/
def s1 : Server :=
  { net := "udp", addrStr := ":69", close := false, retransmit := 10,
    rh := true, wh := false }

/-- Example peer address. -/
def addr0 : UDPAddr := ⟨"127.0.0.1", 50000⟩

/-- A valid RRQ for file "f" in octet mode. -/
def rrq0 : List Nat := [0, 1, 102, 0, 111, 99, 116, 101, 116, 0]

/-- A valid WRQ for file "f" in octet mode. -/
def wrq0 : List Nat := [0, 2, 102, 0, 111, 99, 116, 101, 116, 0]

/-- C1: a datagram that fails packet validation is silently dropped by
`dispatchRequest`: no handler is invoked and no packet is sent back to the
sender. -/
theorem dispatch_drops_malformed (s : Server) (nc rs : Bool) (addr : UDPAddr)
    (b : List Nat) (h : pktValidate b = false) :
    ∀ e ∈ (dispatchRequest s nc rs addr b).1,
      e.isHandlerInvocation = false ∧ e.isSend = false := by
  intro e he
  cases nc with
  | false => simp [dispatchRequest] at he
  | true =>
    simp [dispatchRequest, h] at he
    rcases he with rfl | rfl <;> simp [Event.isHandlerInvocation, Event.isSend]

/-- Witness for C1: the empty datagram is malformed and is dropped. -/
theorem dispatch_drops_malformed_witness :
    pktValidate [] = false ∧
    ∀ e ∈ (dispatchRequest s0 true false addr0 []).1,
      e.isHandlerInvocation = false ∧ e.isSend = false :=
  ⟨by decide, dispatch_drops_malformed s0 true false addr0 [] (by decide)⟩

/-- C6: a valid first datagram whose opcode is neither RRQ nor WRQ is
dropped by `dispatchRequest`: no handler is invoked and no reply is sent. -/
theorem dispatch_drops_other_opcodes (s : Server) (nc rs : Bool) (addr : UDPAddr)
    (b : List Nat) (hv : pktValidate b = true)
    (h1 : pktOpcode b ≠ opCodeRRQ) (h2 : pktOpcode b ≠ opCodeWRQ) :
    ∀ e ∈ (dispatchRequest s nc rs addr b).1,
      e.isHandlerInvocation = false ∧ e.isSend = false := by
  intro e he
  cases nc with
  | false => simp [dispatchRequest] at he
  | true =>
    simp [dispatchRequest, hv, h1, h2] at he
    rcases he with rfl | rfl <;> simp [Event.isHandlerInvocation, Event.isSend]

/-- Witness for C6: a valid ACK datagram reaches the dispatcher and is
dropped without handler or reply. -/
theorem dispatch_drops_other_opcodes_witness :
    pktValidate [0, 4, 0, 1] = true
    ∧ pktOpcode [0, 4, 0, 1] ≠ opCodeRRQ
    ∧ pktOpcode [0, 4, 0, 1] ≠ opCodeWRQ
    ∧ ∀ e ∈ (dispatchRequest s0 true false addr0 [0, 4, 0, 1]).1,
        e.isHandlerInvocation = false ∧ e.isSend = false :=
  ⟨by decide, by decide, by decide,
    dispatch_drops_other_opcodes s0 true false addr0 [0, 4, 0, 1]
      (by decide) (by decide) (by decide)⟩

/-- C5: `dispatchRequest` first opens a new connection toward the client's
address on the configured network, closes that connection when request
handling returns, and never sends anything on the listener socket. -/
theorem dispatch_fresh_socket (s : Server) (rs : Bool) (addr : UDPAddr)
    (b : List Nat) :
    (dispatchRequest s true rs addr b).1.head? = some (Event.openConn s.net addr)
    ∧ (dispatchRequest s true rs addr b).1.getLast? = some Event.closeConn
    ∧ ∀ c m, Event.sendError Sock.listener c m ∉ (dispatchRequest s true rs addr b).1 := by
  simp only [dispatchRequest]
  split_ifs <;> simp_all

/-- C2 counterexample: on a valid RRQ arriving when no read handler is
registered, the ERROR(4) actually sent carries the message "Server does not
support read requests." (with a trailing period); no event of the trace
carries the claimed message "Server does not support read requests". -/
theorem unregistered_read_error_message_cex :
    pktValidate rrq0 = true ∧ pktOpcode rrq0 = opCodeRRQ ∧ s0.rh = false
    ∧ Event.sendError Sock.transferConn 4 "Server does not support read requests." ∈
        (dispatchRequest s0 true false addr0 rrq0).1
    ∧ Event.sendError Sock.transferConn 4 "Server does not support read requests" ∉
        (dispatchRequest s0 true false addr0 rrq0).1
    ∧ Event.sendError Sock.listener 4 "Server does not support read requests" ∉
        (dispatchRequest s0 true false addr0 rrq0).1 := by decide

/-- C2 amended: on a valid RRQ with no read handler registered, the server
sends ERROR(4) "Server does not support read requests." (trailing period)
on the per-transfer socket and then closes it, invoking no handler;
symmetrically for a WRQ with no write handler, with message "Server does
not support write requests." -/
theorem unregistered_handler_sends_error4 (s : Server) (rs : Bool)
    (addr : UDPAddr) (b : List Nat) (hv : pktValidate b = true) :
    (pktOpcode b = opCodeRRQ → s.rh = false →
      (dispatchRequest s true rs addr b).1 =
        [Event.openConn s.net addr,
         Event.sendError Sock.transferConn 4 "Server does not support read requests.",
         Event.closeConn])
    ∧ (pktOpcode b = opCodeWRQ → s.wh = false →
      (dispatchRequest s true rs addr b).1 =
        [Event.openConn s.net addr,
         Event.sendError Sock.transferConn 4 "Server does not support write requests.",
         Event.closeConn]) := by
  constructor
  · intro hop hrh
    simp [dispatchRequest, hv, hop, hrh, ErrCodeIllegalOperation]
  · intro hop hwh
    simp [dispatchRequest, hv, hop, hwh, opCodeRRQ, opCodeWRQ,
      ErrCodeIllegalOperation]

/-- Witness for the amended C2: concrete RRQ and WRQ traces against servers
missing the corresponding handler. -/
theorem unregistered_handler_sends_error4_witness :
    (dispatchRequest s0 true false addr0 rrq0).1 =
      [Event.openConn "udp" addr0,
       Event.sendError Sock.transferConn 4 "Server does not support read requests.",
       Event.closeConn]
    ∧ (dispatchRequest s1 true false addr0 wrq0).1 =
      [Event.openConn "udp" addr0,
       Event.sendError Sock.transferConn 4 "Server does not support write requests.",
       Event.closeConn] :=
  ⟨(unregistered_handler_sends_error4 s0 false addr0 rrq0 (by decide)).1
      (by decide) rfl,
   (unregistered_handler_sends_error4 s1 false addr0 wrq0 (by decide)).2
      (by decide) rfl⟩

/-- After any run of accepted datagrams, the receive loop's outcome is
decided by the first read error: nil when the close flag was set at that
read, the wrapped read error otherwise. -/
theorem serveLoop_err_outcome (pre : List RecvResult) (buf : List Nat)
    (hpre : ∀ r ∈ pre, ∃ d a, r = RecvResult.ok d a) (cf : Bool)
    (cause : String) (rest : List RecvResult) :
    (serveLoop buf (pre ++ RecvResult.err cf cause :: rest)).2 =
      if cf then ServeOutcome.retNil
      else ServeOutcome.retErr (Err.wrapped "reading from conn" cause) := by
  induction pre generalizing buf with
  | nil => cases cf <;> rfl
  | cons r pre ih =>
    obtain ⟨d, a, rfl⟩ := hpre r (List.mem_cons_self r pre)
    simpa [serveLoop] using
      ih (d.take (min d.length buf.length) ++ buf.drop (min d.length buf.length))
        (fun r2 hr2 => hpre r2 (List.mem_cons_of_mem _ hr2))

/-- C3: `Close` sets the close flag and closes the listener socket; a read
failure while the flag is set makes `Serve` return nil, and a read failure
while the flag is unset makes `Serve` return the wrapped read error. -/
theorem close_and_serve_shutdown (s : Server) (pre rest : List RecvResult)
    (cf : Bool) (cause : String) (hs : s.rh = true ∨ s.wh = true)
    (hpre : ∀ r ∈ pre, ∃ d a, r = RecvResult.ok d a) :
    (Server.Close s).server.close = true
    ∧ (Server.Close s).listenerClosed = true
    ∧ (cf = true →
        (Serve s (pre ++ RecvResult.err cf cause :: rest)).2 = ServeOutcome.retNil)
    ∧ (cf = false →
        (Serve s (pre ++ RecvResult.err cf cause :: rest)).2 =
          ServeOutcome.retErr (Err.wrapped "reading from conn" cause)) := by
  have hcond : (!s.rh && !s.wh) = false := by
    rcases hs with h | h <;> simp [h]
  refine ⟨rfl, rfl, ?_, ?_⟩ <;> intro hcf <;> subst hcf <;>
    · simp only [Serve, hcond, Bool.false_eq_true, if_false]
      rw [serveLoop_err_outcome pre _ hpre _ cause rest]
      simp

/-- Witness for C3: a server with a write handler, shut down cleanly. -/
theorem close_and_serve_shutdown_witness :
    (Server.Close s0).server.close = true
    ∧ (Server.Close s0).listenerClosed = true
    ∧ (true = true →
        (Serve s0 ([] ++ RecvResult.err true "use of closed conn" :: [])).2 =
          ServeOutcome.retNil)
    ∧ (true = false →
        (Serve s0 ([] ++ RecvResult.err true "use of closed conn" :: [])).2 =
          ServeOutcome.retErr (Err.wrapped "reading from conn" "use of closed conn")) :=
  close_and_serve_shutdown s0 [] [] true "use of closed conn" (Or.inr rfl)
    (by simp)

/-- Taking `min (length d) k` elements of `d` is taking `k` elements. -/
theorem take_min_length (d : List Nat) (k : Nat) :
    d.take (min d.length k) = d.take k := by
  rcases Nat.le_total d.length k with h | h
  · rw [Nat.min_eq_left h, List.take_length, List.take_of_length_le h]
  · rw [Nat.min_eq_right h]

/-- The receive loop hands off exactly the accepted datagram copies, for any
shared buffer of length 1024. -/
theorem serveLoop_handoffs (inputs : List RecvResult) (buf : List Nat)
    (hb : buf.length = 1024) :
    (serveLoop buf inputs).1 = acceptedCopies inputs := by
  induction inputs generalizing buf with
  | nil => rfl
  | cons r rest ih =>
    cases r with
    | err cf cause => cases cf <;> rfl
    | ok d a =>
      have hmin : min d.length buf.length ≤ d.length := Nat.min_le_left _ _
      have htk :
          (d.take (min d.length buf.length)).length = min d.length buf.length := by
        rw [List.length_take]
        omega
      have hcopy :
          ((d.take (min d.length buf.length) ++ buf.drop (min d.length buf.length)).take
            (min d.length buf.length)) = d.take 1024 := by
        rw [List.take_left' htk, take_min_length, hb]
      have hlen :
          (d.take (min d.length buf.length) ++ buf.drop (min d.length buf.length)).length
            = 1024 := by
        rw [List.length_append, List.length_take, List.length_drop]
        omega
      simp [serveLoop, acceptedCopies, hcopy, ih _ hlen]

/-- Handoffs already made are not disturbed by later receive-loop inputs:
the handoff list for an extended input sequence extends the original one. -/
theorem acceptedCopies_append (inputs more : List RecvResult) :
    ∃ tail, acceptedCopies (inputs ++ more) = acceptedCopies inputs ++ tail := by
  induction inputs with
  | nil => exact ⟨acceptedCopies more, rfl⟩
  | cons r rest ih =>
    cases r with
    | ok d a =>
      obtain ⟨t, ht⟩ := ih
      exact ⟨t, by simp [acceptedCopies, ht]⟩
    | err cf c => exact ⟨[], by simp [acceptedCopies]⟩

/-- C4: each accepted n-byte datagram is handed off as a fresh copy of
exactly its first n bytes (at most the 1024-byte buffer), and the handoffs
already made are unchanged when the loop processes further input. -/
theorem receive_loop_copies (s : Server) (inputs more : List RecvResult)
    (hs : s.rh = true ∨ s.wh = true) :
    (Serve s inputs).1 = acceptedCopies inputs
    ∧ ∃ tail, (Serve s (inputs ++ more)).1 = (Serve s inputs).1 ++ tail := by
  have hcond : (!s.rh && !s.wh) = false := by
    rcases hs with h | h <;> simp [h]
  have hbase : ∀ l, (Serve s l).1 = acceptedCopies l := fun l => by
    simp only [Serve, hcond, Bool.false_eq_true, if_false]
    exact serveLoop_handoffs l (List.replicate 1024 0) (by rw [List.length_replicate])
  obtain ⟨t, ht⟩ := acceptedCopies_append inputs more
  exact ⟨hbase inputs, t, by rw [hbase inputs, hbase (inputs ++ more), ht]⟩

/-- Witness for C4: a two-datagram run against the write-only server. -/
theorem receive_loop_copies_witness :
    (Serve s0 [RecvResult.ok rrq0 addr0]).1 = acceptedCopies [RecvResult.ok rrq0 addr0]
    ∧ ∃ tail, (Serve s0 ([RecvResult.ok rrq0 addr0] ++ [RecvResult.ok wrq0 addr0])).1 =
        (Serve s0 [RecvResult.ok rrq0 addr0]).1 ++ tail :=
  receive_loop_copies s0 [RecvResult.ok rrq0 addr0] [RecvResult.ok wrq0 addr0]
    (Or.inr rfl)

/-- C9: `Serve` fails with `ErrNoRegisteredHandlers` before reading anything
when neither handler is registered — the result does not depend on the
inputs and nothing is handed off — and enters the receive loop when at
least one handler is registered. -/
theorem serve_requires_handlers (s : Server) (inputs : List RecvResult) :
    (s.rh = false ∧ s.wh = false →
       Serve s inputs = ([], ServeOutcome.retErr Err.noRegisteredHandlers))
    ∧ (s.rh = true ∨ s.wh = true →
       Serve s inputs = serveLoop (List.replicate 1024 0) inputs) := by
  constructor
  · rintro ⟨h1, h2⟩
    unfold Serve
    rw [h1, h2]
    rfl
  · intro h
    have hcond : (!s.rh && !s.wh) = false := by
      rcases h with h | h <;> simp [h]
    simp only [Serve, hcond, Bool.false_eq_true, if_false]

/-- Witness for C9: a handler-less server rejects immediately even with a
pending datagram; a server with a write handler enters the loop. -/
theorem serve_requires_handlers_witness :
    Serve (initialServer ":69") [RecvResult.ok rrq0 addr0] =
      ([], ServeOutcome.retErr Err.noRegisteredHandlers)
    ∧ Serve s0 [] = serveLoop (List.replicate 1024 0) [] :=
  ⟨(serve_requires_handlers (initialServer ":69") [RecvResult.ok rrq0 addr0]).1
      ⟨rfl, rfl⟩,
   (serve_requires_handlers s0 []).2 (Or.inr rfl)⟩

/-- Binding a successful option result continues with the new state. -/
theorem optsBindOk (s : Server) (f : Server → Except Err Server) :
    (Except.ok s >>= f) = f s := rfl

/-- Binding a failed option result keeps the error. -/
theorem optsBindErr (e : Err) (f : Server → Except Err Server) :
    ((Except.error e : Except Err Server) >>= f) = Except.error e := rfl

/-- If a run of options succeeds and the next option fails, the whole
option fold fails with that option's error. -/
theorem foldlM_opts_ok_append (opts1 : List ServerOpt) (s u : Server)
    (o : ServerOpt) (opts2 : List ServerOpt) (e : Err)
    (h1 : opts1.foldlM (fun t o2 => o2 t) s = Except.ok u)
    (h2 : o u = Except.error e) :
    (opts1 ++ o :: opts2).foldlM (fun t o2 => o2 t) s = Except.error e := by
  induction opts1 generalizing s with
  | nil =>
    simp only [List.foldlM_nil] at h1
    cases h1
    rw [List.nil_append, List.foldlM_cons, h2]
    rfl
  | cons a rest ih =>
    rw [List.cons_append, List.foldlM_cons]
    rw [List.foldlM_cons] at h1
    cases ha : a s with
    | error e2 => rw [ha, optsBindErr] at h1; exact absurd h1 (by simp)
    | ok s2 =>
      rw [ha, optsBindOk] at h1
      exact ih s2 h1

/-- If every supplied option succeeds on every server state, the option
fold succeeds. -/
theorem foldlM_opts_all_ok (opts : List ServerOpt) (s : Server)
    (h : ∀ o ∈ opts, ∀ t, ∃ t2, o t = Except.ok t2) :
    ∃ u, opts.foldlM (fun t o2 => o2 t) s = Except.ok u := by
  induction opts generalizing s with
  | nil => exact ⟨s, rfl⟩
  | cons a rest ih =>
    obtain ⟨s2, ha⟩ := h a (List.mem_cons_self a rest) s
    obtain ⟨u, hu⟩ := ih s2 (fun o ho t => h o (List.mem_cons_of_mem _ ho) t)
    exact ⟨u, by rw [List.foldlM_cons, ha]; exact hu⟩

/-- C7: the retransmission budget defaults to 10; `ServerRetransmit`
rejects every negative limit with `ErrInvalidRetransmit` and otherwise
configures the server's budget; every connection `dispatchRequest` creates
carries the server's configured budget. -/
theorem retransmit_configuration (addr : String) (i : Int) (t s : Server)
    (rs : Bool) (a : UDPAddr) (b : List Nat) :
    (∀ u, NewServer addr [] = Except.ok u → u.retransmit = 10)
    ∧ (i < 0 → ServerRetransmit i t = Except.error Err.invalidRetransmit)
    ∧ (0 ≤ i → ∃ u, ServerRetransmit i t = Except.ok u ∧ u.retransmit = i)
    ∧ (∀ c, (dispatchRequest s true rs a b).2 = some c →
        c.retransmit = s.retransmit) := by
  refine ⟨?_, ?_, ?_, ?_⟩
  · intro u hu
    simp only [NewServer, List.foldlM_nil] at hu
    cases hu
    rfl
  · intro hi
    simp [ServerRetransmit, hi]
  · intro hi
    refine ⟨{ t with retransmit := i }, ?_, rfl⟩
    simp [ServerRetransmit, not_lt.mpr hi]
  · intro c hc
    simp only [dispatchRequest] at hc
    split_ifs at hc <;> simp_all <;> rw [← hc]

/-- Witness for C7. -/
theorem retransmit_configuration_witness :
    (∀ u, NewServer ":69" [] = Except.ok u → u.retransmit = 10)
    ∧ ((-3 : Int) < 0 →
        ServerRetransmit (-3) s0 = Except.error Err.invalidRetransmit)
    ∧ ((0 : Int) ≤ (-3 : Int) →
        ∃ u, ServerRetransmit (-3) s0 = Except.ok u ∧ u.retransmit = (-3 : Int))
    ∧ (∀ c, (dispatchRequest s0 true false addr0 rrq0).2 = some c →
        c.retransmit = s0.retransmit) :=
  retransmit_configuration ":69" (-3) s0 s0 false addr0 rrq0

/-- C10: `NewServer` returns the first failing option's error (with no
server): `ServerNet` rejects any network other than "udp", "udp4", "udp6"
with `ErrInvalidNetwork`, `ServerRetransmit` rejects negative limits with
`ErrInvalidRetransmit`; when every option succeeds, `NewServer` returns a
server and no error. -/
theorem newserver_first_error (addr n : String) (i : Int) (t u : Server)
    (pre post opts : List ServerOpt) (o : ServerOpt) (e : Err) :
    (n ≠ "udp" → n ≠ "udp4" → n ≠ "udp6" →
      ServerNet n t = Except.error Err.invalidNetwork)
    ∧ (i < 0 → ServerRetransmit i t = Except.error Err.invalidRetransmit)
    ∧ (NewServer addr pre = Except.ok u → o u = Except.error e →
        NewServer addr (pre ++ o :: post) = Except.error e)
    ∧ ((∀ o2 ∈ opts, ∀ t2, ∃ t3, o2 t2 = Except.ok t3) →
        ∃ u2, NewServer addr opts = Except.ok u2) := by
  refine ⟨?_, ?_, ?_, ?_⟩
  · intro h1 h2 h3
    simp [ServerNet, h1, h2, h3]
  · intro hi
    simp [ServerRetransmit, hi]
  · intro h1 h2
    exact foldlM_opts_ok_append pre _ u o post e h1 h2
  · intro h
    exact foldlM_opts_all_ok opts _ h

/-- Witness for C10: an unknown network and a negative retransmit limit
fail; a failing option aborts `NewServer`; an all-successful option list
yields a server. -/
theorem newserver_first_error_witness :
    ServerNet "tcp" s0 = Except.error Err.invalidNetwork
    ∧ ServerRetransmit (-1) s0 = Except.error Err.invalidRetransmit
    ∧ NewServer ":69" ([] ++ ServerNet "tcp" :: []) = Except.error Err.invalidNetwork
    ∧ ∃ u2, NewServer ":69" [ServerRetransmit 5] = Except.ok u2 := by
  have T := newserver_first_error ":69" "tcp" (-1) s0 (initialServer ":69")
    [] [] [ServerRetransmit 5] (ServerNet "tcp") Err.invalidNetwork
  refine ⟨T.1 (by decide) (by decide) (by decide), T.2.1 (by decide),
    T.2.2.1 rfl ?_, T.2.2.2 ?_⟩
  · exact T.1 (by decide) (by decide) (by decide)
  · intro o2 ho2 t2
    rw [List.mem_singleton] at ho2
    subst ho2
    exact ⟨{ t2 with retransmit := 5 }, by simp [ServerRetransmit]⟩

end Trivialt
